import Mathlib

/-!
Verification of the zcash-api REST-to-JSON-RPC translation layer.

The development shallowly embeds the two source modules that carry all of
the repository's logic:

* `src/services/zcash.service.ts` — the RPC client (`rpcCall`, the
  per-method wrappers, and the request-id counter);
* `src/controllers/zcash.controller.ts` — the per-endpoint request
  handlers (parameter extraction with JavaScript `parseInt` / falsiness
  semantics, required-field checks, and the uniform response envelope).

JavaScript runtime values that flow through the handlers are modelled by
`JsValue`; JSON numbers are modelled as integers, which is faithful for
every property proved here (only truthiness and integer parses are ever
inspected).  The HTTP transport performed by axios is abstracted into a
`TransportOutcome` that each handler receives for its single outbound
call, so a handler becomes a pure function from its request inputs and
the transport outcome to the list of RPC calls it issues and the
response it produces.
-/

/-- A JavaScript value as it appears in a request body, a query string, or
a JSON-RPC result.  JSON numbers are modelled as integers. -/
inductive JsValue where
  | undef : JsValue
  | nullv : JsValue
  | bool : Bool → JsValue
  | num : Int → JsValue
  | str : String → JsValue
  | arr : List JsValue → JsValue
  | obj : List (String × JsValue) → JsValue

/-- JavaScript truthiness of a `JsValue`: `undefined`, `null`, `false`,
`0` and the empty string are falsy; objects and arrays are always truthy. -/
def truthy : JsValue → Bool
  | .undef => false
  | .nullv => false
  | .bool b => b
  | .num n => n != 0
  | .str s => s != ""
  | .arr _ => true
  | .obj _ => true

/-- Numeric value of a character under the given radix, as JavaScript
`parseInt` reads digits: decimal digits, then letters a–z / A–Z for
values 10–35, rejected when at or above the radix. -/
def digitVal (radix : Nat) (c : Char) : Option Nat :=
  let v : Option Nat :=
    if '0' ≤ c ∧ c ≤ '9' then some (c.toNat - '0'.toNat)
    else if 'a' ≤ c ∧ c ≤ 'z' then some (c.toNat - 'a'.toNat + 10)
    else if 'A' ≤ c ∧ c ≤ 'Z' then some (c.toNat - 'A'.toNat + 10)
    else none
  match v with
  | some d => if d < radix then some d else none
  | none => none

/-- Value of the longest digit run at the front of the character list,
threaded through an accumulator; `none` when no digit has been read. -/
def digitsVal (radix : Nat) : List Char → Option Nat → Option Nat
  | [], acc => acc
  | c :: cs, acc =>
    match digitVal radix c with
    | some d => digitsVal radix cs (some (acc.getD 0 * radix + d))
    | none => acc

/-- Models JavaScript `parseInt(s)` with no radix argument: skip leading
whitespace, read an optional sign, switch to radix 16 after a leading
`0x`/`0X`, read the longest run of digits and ignore what follows;
`none` models `NaN` (no digit read). -/
def jsParseInt (s : String) : Option Int :=
  let cs := s.toList.dropWhile Char.isWhitespace
  let signed : Bool × List Char :=
    match cs with
    | '-' :: rest => (true, rest)
    | '+' :: rest => (false, rest)
    | _ => (false, cs)
  let based : Nat × List Char :=
    match signed.2 with
    | '0' :: 'x' :: rest => (16, rest)
    | '0' :: 'X' :: rest => (16, rest)
    | _ => (10, signed.2)
  match digitsVal based.1 based.2 none with
  | none => none
  | some v => if signed.1 then some (-(v : Int)) else some (v : Int)

/-- Models `parseInt(req.query.x as string)` where the query value may be
absent: an absent value is `undefined` in the source, which `parseInt`
coerces to the string "undefined" and parses as `NaN`. -/
def parseIntQuery : Option String → Option Int
  | none => none
  | some s => jsParseInt s

/-- Models the JavaScript default pattern `parseInt(x) || d`: both `NaN`
(here `none`) and `0` are falsy, so each is replaced by the default. -/
def numOrDefault (v : Option Int) (d : Int) : Int :=
  match v with
  | none => d
  | some n => if n = 0 then d else n

/-- Models the falsiness test `!x` on an optional string-valued request
parameter: absent (undefined) and the empty string are falsy. -/
def paramFalsy : Option String → Bool
  | none => true
  | some s => s == ""

example : jsParseInt "123" = some 123 := by decide
example : jsParseInt "abc" = none := by decide
example : jsParseInt "  -42xy" = some (-42) := by decide
example : jsParseInt "0x1A" = some 26 := by decide
example : jsParseInt "0" = some 0 := by decide
example : numOrDefault (jsParseInt "0") 6 = 6 := by decide
example : numOrDefault (jsParseInt "zz") 1 = 1 := by decide

/-- The error object of a JSON-RPC response, from
`src/types/zcash.types.ts`: a numeric code and a message. -/
structure RPCErrorObject where
  code : Int
  message : String

/-- The JSON-RPC response envelope `ZCashRPCResponse` from
`src/types/zcash.types.ts`: a method-specific result, a nullable error
object, and the echoed correlation id. -/
structure ZCashRPCResponse where
  result : JsValue
  error : Option RPCErrorObject
  id : Int

/-- The JSON-RPC request envelope `ZCashRPCRequest` from
`src/types/zcash.types.ts`. -/
structure ZCashRPCRequest where
  jsonrpc : String
  id : Nat
  method : String
  params : List JsValue

/-- Outcome of the single HTTP POST that axios performs for `rpcCall`:
the promise resolves with a parsed response body, or rejects with an
error that carries the HTTP response (a non-2xx status), or rejects with
no response at all (DNS failure, connection refused, timeout). -/
inductive TransportOutcome where
  | success : ZCashRPCResponse → TransportOutcome
  | httpFailure : Option ZCashRPCResponse → String → TransportOutcome
  | networkFailure : String → TransportOutcome

/-- A JavaScript exception as the catch block of `rpcCall` observes it:
either a plain `Error` (which has no `response` field) or an axios
error, with or without an attached HTTP response. -/
inductive ThrownError where
  | plainError : String → ThrownError
  | axiosResponseError : Option ZCashRPCResponse → String → ThrownError
  | axiosNetworkError : String → ThrownError

/-- The try block of `rpcCall` (zcash.service.ts lines 362–371): await
the POST; when the parsed body's `error` field is non-null, throw a
plain `Error` whose message is built from the remote message and code;
otherwise produce the body's `result` field. -/
def rpcTryBody (t : TransportOutcome) : Except ThrownError JsValue :=
  match t with
  | .success resp =>
    match resp.error with
    | some e =>
      .error (.plainError
        ("RPC Error: " ++ e.message ++ " (Code: " ++ toString e.code ++ ")"))
    | none => .ok resp.result
  | .httpFailure data message => .error (.axiosResponseError data message)
  | .networkFailure message => .error (.axiosNetworkError message)

/-- The fallback chain `error.response.data?.error?.message ||
error.message` of the catch block: use the remote error message from the
attached response body when it is present and non-empty, else the
exception's own message. -/
def httpFailureMessage (data : Option ZCashRPCResponse) (message : String) : String :=
  match data with
  | some r =>
    match r.error with
    | some e => if e.message == "" then message else e.message
    | none => message
  | none => message

/-- The catch block of `rpcCall` (zcash.service.ts lines 372–379): an
exception with a `response` field is re-thrown with the prefix
"ZCash RPC Error: "; any other exception — including the plain `Error`
thrown by the try block itself for a non-null JSON-RPC error field — is
re-thrown with the prefix "Network Error: " around its message. -/
def rpcCatchBlock : ThrownError → String
  | .axiosResponseError data message =>
    "ZCash RPC Error: " ++ httpFailureMessage data message
  | .plainError message => "Network Error: " ++ message
  | .axiosNetworkError message => "Network Error: " ++ message

/-- `ZCashService.rpcCall`, given the transport outcome of its single
POST: run the try block; when it throws, the catch block maps the thrown
exception to the message of the `Error` that `rpcCall` finally raises. -/
def rpcCallResult (t : TransportOutcome) : Except String JsValue :=
  match rpcTryBody t with
  | .ok v => .ok v
  | .error e => .error (rpcCatchBlock e)

example :
    rpcCallResult (.success ⟨.num 5, none, 3⟩) = .ok (.num 5) := by rfl
example :
    rpcCallResult (.success ⟨.nullv, some ⟨-5, "bad"⟩, 3⟩)
      = .error "Network Error: RPC Error: bad (Code: -5)" := by rfl
example :
    rpcCallResult (.networkFailure "timeout")
      = .error "Network Error: timeout" := by rfl

/-- One outbound JSON-RPC call as a handler issues it: the method name
and the ordered parameter list that `rpcCall` receives. -/
structure RpcCall where
  method : String
  params : List JsValue

namespace ZCashService

/-- Method and parameters of `getBlockchainInfo` in zcash.service.ts. -/
def getBlockchainInfo : RpcCall := ⟨"getblockchaininfo", []⟩

/-- Method and parameters of `getWalletInfo`. -/
def getWalletInfo : RpcCall := ⟨"getwalletinfo", []⟩

/-- Method and parameters of `getBalance`: the wildcard account and the
minimum confirmation count. -/
def getBalance (minConfirmations : Int) : RpcCall :=
  ⟨"getbalance", [.str "*", .num minConfirmations]⟩

/-- Method and parameters of `getNewAddress`. -/
def getNewAddress (account : JsValue) : RpcCall :=
  ⟨"getnewaddress", [account]⟩

/-- Method and parameters of `getTransaction`. -/
def getTransaction (txid : String) : RpcCall :=
  ⟨"gettransaction", [.str txid]⟩

/-- Method and parameters of `listTransactions`: wildcard account, count
and skip. -/
def listTransactions (count skip : Int) : RpcCall :=
  ⟨"listtransactions", [.str "*", .num count, .num skip]⟩

/-- Method and parameters of `sendToAddress`; the body values are passed
through unvalidated beyond the controller's truthiness check. -/
def sendToAddress (address amount comment : JsValue) : RpcCall :=
  ⟨"sendtoaddress", [address, amount, comment]⟩

/-- Method and parameters of `validateAddress`. -/
def validateAddress (address : String) : RpcCall :=
  ⟨"validateaddress", [.str address]⟩

/-- Method and parameters of `getBlock`. -/
def getBlock (blockhash : String) (verbosity : Int) : RpcCall :=
  ⟨"getblock", [.str blockhash, .num verbosity]⟩

/-- Method and parameters of `getBlockCount`. -/
def getBlockCount : RpcCall := ⟨"getblockcount", []⟩

/-- Method and parameters of `getBlockHash`. -/
def getBlockHash (height : Int) : RpcCall :=
  ⟨"getblockhash", [.num height]⟩

/-- Method and parameters of `getNetworkInfo`. -/
def getNetworkInfo : RpcCall := ⟨"getnetworkinfo", []⟩

/-- Method and parameters of `getMiningInfo`. -/
def getMiningInfo : RpcCall := ⟨"getmininginfo", []⟩

/-- Method and parameters of `listUnspent`. -/
def listUnspent (minConfirmations maxConfirmations : Int) : RpcCall :=
  ⟨"listunspent", [.num minConfirmations, .num maxConfirmations]⟩

/-- Method and parameters of `getRawTransaction`: the boolean `verbose`
argument is sent to the node as the numeral 1 or 0 (`verbose ? 1 : 0`). -/
def getRawTransaction (txid : String) (verbose : Bool) : RpcCall :=
  ⟨"getrawtransaction", [.str txid, .num (if verbose then 1 else 0)]⟩

/-- Method and parameters of `estimateFee`. -/
def estimateFee (nblocks : Int) : RpcCall :=
  ⟨"estimatefee", [.num nblocks]⟩

/-- Method and parameters of `getConnectionCount`. -/
def getConnectionCount : RpcCall := ⟨"getconnectioncount", []⟩

end ZCashService

/-- What a handler does with the HTTP response: `ok` is
`res.json` of a successful envelope (status 200 by default),
`clientError` is `res.status(s).json` of a failure envelope, and
`forward` is `next(error)` — the failure is handed to the error
middleware, which lives outside this repository. -/
inductive HandlerOutcome where
  | ok : JsValue → HandlerOutcome
  | clientError : Nat → String → HandlerOutcome
  | forward : String → HandlerOutcome

/-- HTTP status produced by an outcome; a forwarded failure's status is
chosen by the external error middleware, hence `none`. -/
def HandlerOutcome.statusOf : HandlerOutcome → Option Nat
  | .ok _ => some 200
  | .clientError s _ => some s
  | .forward _ => none

/-- The `success` flag of the JSON body produced by an outcome. -/
def HandlerOutcome.successFlag : HandlerOutcome → Option Bool
  | .ok _ => some true
  | .clientError _ _ => some false
  | .forward _ => none

/-- Result of running one handler on one request: the RPC calls it
issued to the remote node, and the response outcome. -/
structure HandlerResult where
  calls : List RpcCall
  outcome : HandlerOutcome

/-- The try/catch body shared by every handler: await the service call,
wrap the result through `shape` into a `success: true` envelope, and
forward any raised failure to `next`. -/
def handleRpc (t : TransportOutcome) (shape : JsValue → JsValue) : HandlerOutcome :=
  match rpcCallResult t with
  | .ok v => .ok (shape v)
  | .error e => .forward e

namespace ZCashController

/-- Handler for GET /blockchain/info: one `getblockchaininfo` call, data
returned verbatim. -/
def getBlockchainInfo (t : TransportOutcome) : HandlerResult :=
  { calls := [ZCashService.getBlockchainInfo],
    outcome := handleRpc t (fun data => data) }

/-- Handler for GET /wallet/info. -/
def getWalletInfo (t : TransportOutcome) : HandlerResult :=
  { calls := [ZCashService.getWalletInfo],
    outcome := handleRpc t (fun data => data) }

/-- Handler for GET /wallet/balance: `minConfirmations` is
`parseInt(req.query.minConfirmations as string) || 1`; the data reshapes
the result as a balance/minConfirmations object. -/
def getBalance (minConfirmationsQ : Option String) (t : TransportOutcome) :
    HandlerResult :=
  let minConfirmations := numOrDefault (parseIntQuery minConfirmationsQ) 1
  { calls := [ZCashService.getBalance minConfirmations],
    outcome := handleRpc t (fun balance =>
      .obj [("balance", balance), ("minConfirmations", .num minConfirmations)]) }

/-- Handler for POST /wallet/newaddress: `(req.body.account as string) || ''`. -/
def getNewAddress (account : JsValue) (t : TransportOutcome) : HandlerResult :=
  let accountArg := if truthy account then account else .str ""
  { calls := [ZCashService.getNewAddress accountArg],
    outcome := handleRpc t (fun address => .obj [("address", address)]) }

/-- Handler for GET /transaction/:txid: a falsy `txid` short-circuits
with status 400 and no RPC call. -/
def getTransaction (txid : Option String) (t : TransportOutcome) : HandlerResult :=
  if paramFalsy txid then
    { calls := [], outcome := .clientError 400 "Transaction ID is required" }
  else
    { calls := [ZCashService.getTransaction (txid.getD "")],
      outcome := handleRpc t (fun transaction => transaction) }

/-- Handler for GET /transactions: `count` defaults to 10 and `skip` to
0 through the `parseInt(...) || d` pattern; data returned verbatim. -/
def listTransactions (countQ skipQ : Option String) (t : TransportOutcome) :
    HandlerResult :=
  let count := numOrDefault (parseIntQuery countQ) 10
  let skip := numOrDefault (parseIntQuery skipQ) 0
  { calls := [ZCashService.listTransactions count skip],
    outcome := handleRpc t (fun transactions => transactions) }

/-- Handler for POST /transaction/send: `if (!address || !amount)` short-
circuits with status 400 and no RPC call; otherwise the service applies
its default `comment = ''` exactly when the argument is undefined. -/
def sendToAddress (address amount comment : JsValue) (t : TransportOutcome) :
    HandlerResult :=
  if !truthy address || !truthy amount then
    { calls := [], outcome := .clientError 400 "Address and amount are required" }
  else
    let commentArg : JsValue :=
      match comment with
      | .undef => .str ""
      | v => v
    { calls := [ZCashService.sendToAddress address amount commentArg],
      outcome := handleRpc t (fun txid => .obj [("txid", txid)]) }

/-- Handler for GET /address/validate/:address. -/
def validateAddress (address : Option String) (t : TransportOutcome) :
    HandlerResult :=
  if paramFalsy address then
    { calls := [], outcome := .clientError 400 "Address is required" }
  else
    { calls := [ZCashService.validateAddress (address.getD "")],
      outcome := handleRpc t (fun validation => validation) }

/-- Handler for GET /blockchain/block/:blockhash: `verbosity` defaults to
1; a falsy `blockhash` short-circuits with status 400 and no RPC call. -/
def getBlock (blockhash : Option String) (verbosityQ : Option String)
    (t : TransportOutcome) : HandlerResult :=
  let verbosity := numOrDefault (parseIntQuery verbosityQ) 1
  if paramFalsy blockhash then
    { calls := [], outcome := .clientError 400 "Block hash is required" }
  else
    { calls := [ZCashService.getBlock (blockhash.getD "") verbosity],
      outcome := handleRpc t (fun block => block) }

/-- Handler for GET /blockchain/blockcount: data reshaped as an object. -/
def getBlockCount (t : TransportOutcome) : HandlerResult :=
  { calls := [ZCashService.getBlockCount],
    outcome := handleRpc t (fun blockCount => .obj [("blockCount", blockCount)]) }

/-- Handler for GET /blockchain/blockhash/:height: `parseInt` of the
path segment, then an `isNaN` check that short-circuits with status 400
and no RPC call; on success the data echoes height and blockhash. -/
def getBlockHash (heightParam : String) (t : TransportOutcome) : HandlerResult :=
  match jsParseInt heightParam with
  | none =>
    { calls := [], outcome := .clientError 400 "Valid block height is required" }
  | some height =>
    { calls := [ZCashService.getBlockHash height],
      outcome := handleRpc t (fun blockhash =>
        .obj [("height", .num height), ("blockhash", blockhash)]) }

/-- Handler for GET /network/info. -/
def getNetworkInfo (t : TransportOutcome) : HandlerResult :=
  { calls := [ZCashService.getNetworkInfo],
    outcome := handleRpc t (fun networkInfo => networkInfo) }

/-- Handler for GET /mining/info. -/
def getMiningInfo (t : TransportOutcome) : HandlerResult :=
  { calls := [ZCashService.getMiningInfo],
    outcome := handleRpc t (fun miningInfo => miningInfo) }

/-- Handler for GET /wallet/unspent: `minConfirmations` defaults to 1 and
`maxConfirmations` to 9999999; data returned verbatim. -/
def listUnspent (minConfirmationsQ maxConfirmationsQ : Option String)
    (t : TransportOutcome) : HandlerResult :=
  let minConfirmations := numOrDefault (parseIntQuery minConfirmationsQ) 1
  let maxConfirmations := numOrDefault (parseIntQuery maxConfirmationsQ) 9999999
  { calls := [ZCashService.listUnspent minConfirmations maxConfirmations],
    outcome := handleRpc t (fun unspent => unspent) }

/-- Handler for GET /transaction/:txid/raw: `verbose` is the strict
string comparison `req.query.verbose === 'true'`; a falsy `txid` short-
circuits with status 400 and no RPC call. -/
def getRawTransaction (txid : Option String) (verboseQ : Option String)
    (t : TransportOutcome) : HandlerResult :=
  let verbose : Bool := verboseQ == some "true"
  if paramFalsy txid then
    { calls := [], outcome := .clientError 400 "Transaction ID is required" }
  else
    { calls := [ZCashService.getRawTransaction (txid.getD "") verbose],
      outcome := handleRpc t (fun rawTx => rawTx) }

/-- Handler for GET /fee/estimate: `nblocks` defaults to 6; the data
echoes the fee and nblocks. -/
def estimateFee (nblocksQ : Option String) (t : TransportOutcome) : HandlerResult :=
  let nblocks := numOrDefault (parseIntQuery nblocksQ) 6
  { calls := [ZCashService.estimateFee nblocks],
    outcome := handleRpc t (fun fee =>
      .obj [("fee", fee), ("nblocks", .num nblocks)]) }

/-- Handler for GET /network/connections: data reshaped as an object. -/
def getConnectionCount (t : TransportOutcome) : HandlerResult :=
  { calls := [ZCashService.getConnectionCount],
    outcome := handleRpc t (fun connections =>
      .obj [("connections", connections)]) }

end ZCashController

/-- The `ZCashService` constructor initialises `requestId` to 0. -/
def initialRequestId : Nat := 0

/-- The envelope construction at the head of `rpcCall`
(zcash.service.ts lines 354–360): `id: ++this.requestId` pre-increments
the counter and places the incremented value in the envelope; the
function returns the built request together with the updated counter. -/
def buildRpcRequest (requestId : Nat) (method : String)
    (params : List JsValue) : ZCashRPCRequest × Nat :=
  (⟨"2.0", requestId + 1, method, params⟩, requestId + 1)

/-- Correlation ids assigned to a sequence of `rpcCall` invocations,
threading the counter from the given starting value. -/
def requestIdsFrom (requestId : Nat) :
    List (String × List JsValue) → List Nat
  | [] => []
  | c :: rest =>
    (buildRpcRequest requestId c.1 c.2).1.id ::
      requestIdsFrom (buildRpcRequest requestId c.1 c.2).2 rest

theorem requestIdsFrom_cons (st : Nat) (c : String × List JsValue)
    (rest : List (String × List JsValue)) :
    requestIdsFrom st (c :: rest) = (st + 1) :: requestIdsFrom (st + 1) rest := rfl

theorem mem_requestIdsFrom_lt (calls : List (String × List JsValue)) :
    ∀ (st x : Nat), x ∈ requestIdsFrom st calls → st < x := by
  induction calls with
  | nil => intro st x hx; simp [requestIdsFrom] at hx
  | cons c rest ih =>
    intro st x hx
    rw [requestIdsFrom_cons] at hx
    rcases List.mem_cons.mp hx with h | h
    · omega
    · have := ih (st + 1) x h
      omega

/-- C3: the correlation id strictly increases over the process lifetime:
for any counter state, the id placed by a second call to `rpcCall`
strictly exceeds the id placed by the first; the ids of any sequence of
calls starting from the constructor's initial counter are pairwise
strictly increasing, hence pairwise distinct. -/
theorem rpc_request_id_strictly_increases :
    (∀ (st : Nat) (m1 m2 : String) (p1 p2 : List JsValue),
      (buildRpcRequest st m1 p1).1.id
        < (buildRpcRequest (buildRpcRequest st m1 p1).2 m2 p2).1.id)
    ∧ (∀ (calls : List (String × List JsValue)),
        List.Pairwise (· < ·) (requestIdsFrom initialRequestId calls))
    ∧ (∀ (calls : List (String × List JsValue)),
        (requestIdsFrom initialRequestId calls).Nodup) := by
  have pair : ∀ (calls : List (String × List JsValue)) (st : Nat),
      List.Pairwise (· < ·) (requestIdsFrom st calls) := by
    intro calls
    induction calls with
    | nil => intro st; simp [requestIdsFrom]
    | cons c rest ih =>
      intro st
      rw [requestIdsFrom_cons]
      exact List.pairwise_cons.mpr
        ⟨fun x hx => mem_requestIdsFrom_lt rest (st + 1) x hx, ih (st + 1)⟩
  refine ⟨fun st m1 m2 p1 p2 => ?_, fun calls => pair calls initialRequestId,
    fun calls => List.Pairwise.imp (fun h => Nat.ne_of_lt h)
      (pair calls initialRequestId)⟩
  simp [buildRpcRequest]

/-- C1: when the transport succeeds but the JSON-RPC error field is
non-null, the inner `throw new Error('RPC Error: ...')` is caught by
`rpcCall`'s own catch block, which — since a plain `Error` has no
`response` field — re-wraps it with the "Network Error: " prefix.  At
this concrete input the raised failure is byte-for-byte identical to the
failure raised for a genuine transport failure whose cause message is
the same text, so the two kinds are not distinguishable by the caller. -/
theorem rpc_error_kind_collapses_into_network_error :
    rpcCallResult (.success ⟨.nullv, some ⟨-5, "Invalid address"⟩, 7⟩)
        = .error "Network Error: RPC Error: Invalid address (Code: -5)"
    ∧ rpcCallResult
        (.networkFailure "RPC Error: Invalid address (Code: -5)")
        = .error "Network Error: RPC Error: Invalid address (Code: -5)" :=
  ⟨rfl, rfl⟩

/-- C2: for each endpoint with a required field — send address/amount,
txid (both transaction endpoints), the address path parameter, and the
blockhash — a request in which the field is absent is answered with
status 400 and a success-false envelope carrying an error message, and
the list of issued RPC calls is empty. -/
theorem missing_required_field_rejected_without_rpc :
    (∀ (amount comment : JsValue) (t : TransportOutcome),
      ZCashController.sendToAddress .undef amount comment t
        = ⟨[], .clientError 400 "Address and amount are required"⟩)
    ∧ (∀ (address comment : JsValue) (t : TransportOutcome),
      ZCashController.sendToAddress address .undef comment t
        = ⟨[], .clientError 400 "Address and amount are required"⟩)
    ∧ (∀ (t : TransportOutcome),
      ZCashController.getTransaction none t
        = ⟨[], .clientError 400 "Transaction ID is required"⟩)
    ∧ (∀ (q : Option String) (t : TransportOutcome),
      ZCashController.getRawTransaction none q t
        = ⟨[], .clientError 400 "Transaction ID is required"⟩)
    ∧ (∀ (t : TransportOutcome),
      ZCashController.validateAddress none t
        = ⟨[], .clientError 400 "Address is required"⟩)
    ∧ (∀ (q : Option String) (t : TransportOutcome),
      ZCashController.getBlock none q t
        = ⟨[], .clientError 400 "Block hash is required"⟩)
    ∧ (∀ (s : Nat) (e : String),
      (HandlerOutcome.clientError s e).statusOf = some s
        ∧ (HandlerOutcome.clientError s e).successFlag = some false) := by
  refine ⟨?_, ?_, ?_, ?_, ?_, ?_, ?_⟩
  · intro amount comment t
    simp [ZCashController.sendToAddress, truthy]
  · intro address comment t
    simp [ZCashController.sendToAddress, truthy]
  · intro t; rfl
  · intro q t; rfl
  · intro t; rfl
  · intro q t; rfl
  · intro s e; exact ⟨rfl, rfl⟩

/-- C9: POST /transaction/send rejects present-but-falsy required fields
exactly as absent ones: an empty-string address, or an amount equal to
0, short-circuits with status 400, the fixed error message, and no RPC
call, whatever the other fields hold. -/
theorem falsy_send_fields_rejected_without_rpc :
    (∀ (amount comment : JsValue) (t : TransportOutcome),
      ZCashController.sendToAddress (.str "") amount comment t
        = ⟨[], .clientError 400 "Address and amount are required"⟩)
    ∧ (∀ (address comment : JsValue) (t : TransportOutcome),
      ZCashController.sendToAddress address (.num 0) comment t
        = ⟨[], .clientError 400 "Address and amount are required"⟩) := by
  constructor
  · intro amount comment t
    simp [ZCashController.sendToAddress, truthy]
  · intro address comment t
    simp [ZCashController.sendToAddress, truthy]

/-- C4: omitting an optional numeric parameter behaves as if the
documented default were supplied: minConfirmations 1 (balance and
unspent), maxConfirmations 9999999, count 10 and skip 0, nblocks 6,
verbosity 1; where the handler echoes the parameter (balance, fee), the
default appears in the response data. -/
theorem omitted_numeric_params_use_defaults :
    (∀ (t : TransportOutcome),
      (ZCashController.getBalance none t).calls = [ZCashService.getBalance 1])
    ∧ (∀ (v : JsValue) (i : Int),
      (ZCashController.getBalance none (.success ⟨v, none, i⟩)).outcome
        = .ok (.obj [("balance", v), ("minConfirmations", .num 1)]))
    ∧ (∀ (t : TransportOutcome),
      (ZCashController.listUnspent none none t).calls
        = [ZCashService.listUnspent 1 9999999])
    ∧ (∀ (t : TransportOutcome),
      (ZCashController.listTransactions none none t).calls
        = [ZCashService.listTransactions 10 0])
    ∧ (∀ (t : TransportOutcome),
      (ZCashController.estimateFee none t).calls = [ZCashService.estimateFee 6])
    ∧ (∀ (v : JsValue) (i : Int),
      (ZCashController.estimateFee none (.success ⟨v, none, i⟩)).outcome
        = .ok (.obj [("fee", v), ("nblocks", .num 6)]))
    ∧ (∀ (bh : String) (t : TransportOutcome), (bh == "") = false →
      (ZCashController.getBlock (some bh) none t).calls
        = [ZCashService.getBlock bh 1]) := by
  refine ⟨fun t => rfl, fun v i => rfl, fun t => rfl, fun t => rfl,
    fun t => rfl, fun v i => rfl, ?_⟩
  intro bh t hbh
  simp [ZCashController.getBlock, paramFalsy, hbh, parseIntQuery, numOrDefault]

theorem omitted_numeric_params_use_defaults_witness :
    ("00ff" == "") = false
    ∧ (ZCashController.getBlock (some "00ff") none
        (.networkFailure "down")).calls = [ZCashService.getBlock "00ff" 1] :=
  ⟨by decide,
   omitted_numeric_params_use_defaults.2.2.2.2.2.2 "00ff"
     (.networkFailure "down") (by decide)⟩

/-- C5: a present optional numeric parameter whose value fails to parse
as an integer is not rejected: the documented default is substituted and
the single RPC call is still issued, for minConfirmations,
maxConfirmations, count, skip, nblocks and verbosity. -/
theorem unparseable_numeric_params_fall_back_to_defaults :
    ∀ (s : String), jsParseInt s = none →
      (∀ (t : TransportOutcome),
        (ZCashController.getBalance (some s) t).calls
          = [ZCashService.getBalance 1])
      ∧ (∀ (t : TransportOutcome),
        (ZCashController.listTransactions (some s) (some s) t).calls
          = [ZCashService.listTransactions 10 0])
      ∧ (∀ (t : TransportOutcome),
        (ZCashController.listUnspent (some s) (some s) t).calls
          = [ZCashService.listUnspent 1 9999999])
      ∧ (∀ (t : TransportOutcome),
        (ZCashController.estimateFee (some s) t).calls
          = [ZCashService.estimateFee 6])
      ∧ (∀ (bh : String) (t : TransportOutcome), (bh == "") = false →
        (ZCashController.getBlock (some bh) (some s) t).calls
          = [ZCashService.getBlock bh 1]) := by
  intro s hs
  refine ⟨?_, ?_, ?_, ?_, ?_⟩
  · intro t
    simp [ZCashController.getBalance, parseIntQuery, hs, numOrDefault]
  · intro t
    simp [ZCashController.listTransactions, parseIntQuery, hs, numOrDefault]
  · intro t
    simp [ZCashController.listUnspent, parseIntQuery, hs, numOrDefault]
  · intro t
    simp [ZCashController.estimateFee, parseIntQuery, hs, numOrDefault]
  · intro bh t hbh
    simp [ZCashController.getBlock, paramFalsy, hbh, parseIntQuery, hs,
      numOrDefault]

theorem unparseable_numeric_params_witness :
    jsParseInt "zz" = none
    ∧ (ZCashController.getBalance (some "zz")
        (.networkFailure "down")).calls = [ZCashService.getBalance 1]
    ∧ (ZCashController.estimateFee (some "zz")
        (.networkFailure "down")).calls = [ZCashService.estimateFee 6] :=
  ⟨by decide,
   (unparseable_numeric_params_fall_back_to_defaults "zz" (by decide)).1
     (.networkFailure "down"),
   (unparseable_numeric_params_fall_back_to_defaults "zz"
     (by decide)).2.2.2.1 (.networkFailure "down")⟩

/-- C8: a present optional numeric parameter that parses to 0 is
replaced by the documented non-zero default because the substitution
tests falsiness of the parsed value: minConfirmations becomes 1 (in the
RPC call and the echoed response), count becomes 10, nblocks becomes 6,
and verbosity becomes 1. -/
theorem zero_numeric_params_replaced_by_defaults :
    ∀ (s : String), jsParseInt s = some 0 →
      (∀ (t : TransportOutcome),
        (ZCashController.getBalance (some s) t).calls
          = [ZCashService.getBalance 1])
      ∧ (∀ (v : JsValue) (i : Int),
        (ZCashController.getBalance (some s) (.success ⟨v, none, i⟩)).outcome
          = .ok (.obj [("balance", v), ("minConfirmations", .num 1)]))
      ∧ (∀ (t : TransportOutcome),
        (ZCashController.listTransactions (some s) none t).calls
          = [ZCashService.listTransactions 10 0])
      ∧ (∀ (t : TransportOutcome),
        (ZCashController.estimateFee (some s) t).calls
          = [ZCashService.estimateFee 6])
      ∧ (∀ (bh : String) (t : TransportOutcome), (bh == "") = false →
        (ZCashController.getBlock (some bh) (some s) t).calls
          = [ZCashService.getBlock bh 1]) := by
  intro s hs
  refine ⟨?_, ?_, ?_, ?_, ?_⟩
  · intro t
    simp [ZCashController.getBalance, parseIntQuery, hs, numOrDefault]
  · intro v i
    simp [ZCashController.getBalance, parseIntQuery, hs, numOrDefault,
      handleRpc, rpcCallResult, rpcTryBody]
  · intro t
    simp [ZCashController.listTransactions, parseIntQuery, hs, numOrDefault]
  · intro t
    simp [ZCashController.estimateFee, parseIntQuery, hs, numOrDefault]
  · intro bh t hbh
    simp [ZCashController.getBlock, paramFalsy, hbh, parseIntQuery, hs,
      numOrDefault]

theorem zero_numeric_params_witness :
    jsParseInt "0" = some 0
    ∧ (ZCashController.getBalance (some "0")
        (.networkFailure "down")).calls = [ZCashService.getBalance 1]
    ∧ (ZCashController.getBalance (some "0")
        (.success ⟨.num 42, none, 1⟩)).outcome
        = .ok (.obj [("balance", .num 42), ("minConfirmations", .num 1)]) :=
  ⟨by decide,
   (zero_numeric_params_replaced_by_defaults "0" (by decide)).1
     (.networkFailure "down"),
   (zero_numeric_params_replaced_by_defaults "0" (by decide)).2.1
     (.num 42) 1⟩

/-- C6: GET /blockchain/blockhash/:height requires an integer height: a
height segment that does not parse yields status 400, a success-false
envelope and no RPC call; a height segment that parses to n yields
exactly one getblockhash call with n, and on a successful transport the
data echoes both the height and the returned blockhash. -/
theorem blockhash_height_must_parse :
    (∀ (h : String) (t : TransportOutcome), jsParseInt h = none →
      ZCashController.getBlockHash h t
        = ⟨[], .clientError 400 "Valid block height is required"⟩)
    ∧ (∀ (h : String) (n : Int) (t : TransportOutcome), jsParseInt h = some n →
      (ZCashController.getBlockHash h t).calls = [ZCashService.getBlockHash n])
    ∧ (∀ (h : String) (n : Int) (v : JsValue) (i : Int),
      jsParseInt h = some n →
      (ZCashController.getBlockHash h (.success ⟨v, none, i⟩)).outcome
        = .ok (.obj [("height", .num n), ("blockhash", v)])) := by
  refine ⟨?_, ?_, ?_⟩
  · intro h t hp
    simp [ZCashController.getBlockHash, hp]
  · intro h n t hp
    simp [ZCashController.getBlockHash, hp]
  · intro h n v i hp
    simp [ZCashController.getBlockHash, hp, handleRpc, rpcCallResult,
      rpcTryBody]

theorem blockhash_height_witness :
    jsParseInt "abc" = none
    ∧ jsParseInt "123" = some 123
    ∧ ZCashController.getBlockHash "abc" (.networkFailure "down")
        = ⟨[], .clientError 400 "Valid block height is required"⟩
    ∧ (ZCashController.getBlockHash "123" (.networkFailure "down")).calls
        = [ZCashService.getBlockHash 123]
    ∧ (ZCashController.getBlockHash "123"
        (.success ⟨.str "00ab", none, 2⟩)).outcome
        = .ok (.obj [("height", .num 123), ("blockhash", .str "00ab")]) :=
  ⟨by decide, by decide,
   blockhash_height_must_parse.1 "abc" (.networkFailure "down") (by decide),
   blockhash_height_must_parse.2.1 "123" 123 (.networkFailure "down")
     (by decide),
   blockhash_height_must_parse.2.2 "123" 123 (.str "00ab") 2 (by decide)⟩

/-- C10: GET /transaction/:txid/raw treats verbose as true exactly when
the query value is the string "true": then the getrawtransaction call
receives the numeral 1; for every other query value — absent, "TRUE",
"1", anything else — it receives the numeral 0; in both cases the
parameter is a number, never a boolean. -/
theorem raw_transaction_verbose_flag :
    ∀ (txid : String), (txid == "") = false →
      (∀ (t : TransportOutcome),
        (ZCashController.getRawTransaction (some txid) (some "true") t).calls
          = [⟨"getrawtransaction", [.str txid, .num 1]⟩])
      ∧ (∀ (q : Option String) (t : TransportOutcome),
        (q == some "true") = false →
        (ZCashController.getRawTransaction (some txid) q t).calls
          = [⟨"getrawtransaction", [.str txid, .num 0]⟩]) := by
  intro txid htx
  constructor
  · intro t
    simp [ZCashController.getRawTransaction, paramFalsy, htx,
      ZCashService.getRawTransaction]
  · intro q t hq
    simp [ZCashController.getRawTransaction, paramFalsy, htx, hq,
      ZCashService.getRawTransaction]

theorem raw_transaction_verbose_flag_witness :
    ("ab12" == "") = false
    ∧ ((some "TRUE" : Option String) == some "true") = false
    ∧ (ZCashController.getRawTransaction (some "ab12") (some "true")
        (.networkFailure "down")).calls
        = [⟨"getrawtransaction", [.str "ab12", .num 1]⟩]
    ∧ (ZCashController.getRawTransaction (some "ab12") (some "TRUE")
        (.networkFailure "down")).calls
        = [⟨"getrawtransaction", [.str "ab12", .num 0]⟩]
    ∧ (ZCashController.getRawTransaction (some "ab12") none
        (.networkFailure "down")).calls
        = [⟨"getrawtransaction", [.str "ab12", .num 0]⟩] :=
  ⟨by decide, by decide,
   (raw_transaction_verbose_flag "ab12" (by decide)).1 (.networkFailure "down"),
   (raw_transaction_verbose_flag "ab12" (by decide)).2 (some "TRUE")
     (.networkFailure "down") (by decide),
   (raw_transaction_verbose_flag "ab12" (by decide)).2 none
     (.networkFailure "down") (by decide)⟩

/-- C7: on the success path — transport succeeded and the response's
error field is null — `rpcCall` returns the response's result field
unchanged, and every handler responds with status 200 and a
success-true envelope whose data is the result verbatim or the
documented reshaping (balance/minConfirmations, address, txid,
height/blockhash, blockCount, fee/nblocks, connections). -/
theorem success_path_wraps_result :
    (∀ (v : JsValue) (i : Int),
      rpcCallResult (.success ⟨v, none, i⟩) = .ok v)
    ∧ (∀ (v : JsValue), (HandlerOutcome.ok v).statusOf = some 200
        ∧ (HandlerOutcome.ok v).successFlag = some true)
    ∧ (∀ (v : JsValue) (i : Int),
      (ZCashController.getBlockchainInfo (.success ⟨v, none, i⟩)).outcome
        = .ok v)
    ∧ (∀ (v : JsValue) (i : Int),
      (ZCashController.getWalletInfo (.success ⟨v, none, i⟩)).outcome = .ok v)
    ∧ (∀ (v : JsValue) (i : Int) (q : Option String),
      (ZCashController.getBalance q (.success ⟨v, none, i⟩)).outcome
        = .ok (.obj [("balance", v),
            ("minConfirmations", .num (numOrDefault (parseIntQuery q) 1))]))
    ∧ (∀ (v : JsValue) (i : Int) (a : JsValue),
      (ZCashController.getNewAddress a (.success ⟨v, none, i⟩)).outcome
        = .ok (.obj [("address", v)]))
    ∧ (∀ (v : JsValue) (i : Int) (txid : String), (txid == "") = false →
      (ZCashController.getTransaction (some txid)
        (.success ⟨v, none, i⟩)).outcome = .ok v)
    ∧ (∀ (v : JsValue) (i : Int) (c k : Option String),
      (ZCashController.listTransactions c k (.success ⟨v, none, i⟩)).outcome
        = .ok v)
    ∧ (∀ (v : JsValue) (i : Int) (addr amt cm : JsValue),
      truthy addr = true → truthy amt = true →
      (ZCashController.sendToAddress addr amt cm
        (.success ⟨v, none, i⟩)).outcome = .ok (.obj [("txid", v)]))
    ∧ (∀ (v : JsValue) (i : Int) (a : String), (a == "") = false →
      (ZCashController.validateAddress (some a)
        (.success ⟨v, none, i⟩)).outcome = .ok v)
    ∧ (∀ (v : JsValue) (i : Int) (bh : String) (q : Option String),
      (bh == "") = false →
      (ZCashController.getBlock (some bh) q (.success ⟨v, none, i⟩)).outcome
        = .ok v)
    ∧ (∀ (v : JsValue) (i : Int),
      (ZCashController.getBlockCount (.success ⟨v, none, i⟩)).outcome
        = .ok (.obj [("blockCount", v)]))
    ∧ (∀ (v : JsValue) (i : Int) (h : String) (n : Int),
      jsParseInt h = some n →
      (ZCashController.getBlockHash h (.success ⟨v, none, i⟩)).outcome
        = .ok (.obj [("height", .num n), ("blockhash", v)]))
    ∧ (∀ (v : JsValue) (i : Int),
      (ZCashController.getNetworkInfo (.success ⟨v, none, i⟩)).outcome = .ok v)
    ∧ (∀ (v : JsValue) (i : Int),
      (ZCashController.getMiningInfo (.success ⟨v, none, i⟩)).outcome = .ok v)
    ∧ (∀ (v : JsValue) (i : Int) (q1 q2 : Option String),
      (ZCashController.listUnspent q1 q2 (.success ⟨v, none, i⟩)).outcome
        = .ok v)
    ∧ (∀ (v : JsValue) (i : Int) (txid : String) (q : Option String),
      (txid == "") = false →
      (ZCashController.getRawTransaction (some txid) q
        (.success ⟨v, none, i⟩)).outcome = .ok v)
    ∧ (∀ (v : JsValue) (i : Int) (q : Option String),
      (ZCashController.estimateFee q (.success ⟨v, none, i⟩)).outcome
        = .ok (.obj [("fee", v),
            ("nblocks", .num (numOrDefault (parseIntQuery q) 6))]))
    ∧ (∀ (v : JsValue) (i : Int),
      (ZCashController.getConnectionCount (.success ⟨v, none, i⟩)).outcome
        = .ok (.obj [("connections", v)])) := by
  refine ⟨fun v i => rfl, fun v => ⟨rfl, rfl⟩, fun v i => rfl, fun v i => rfl,
    fun v i q => rfl, fun v i a => rfl, ?_, fun v i c k => rfl, ?_, ?_, ?_,
    fun v i => rfl, ?_, fun v i => rfl, fun v i => rfl, fun v i q1 q2 => rfl,
    ?_, fun v i q => rfl, fun v i => rfl⟩
  · intro v i txid htx
    simp [ZCashController.getTransaction, paramFalsy, htx, handleRpc,
      rpcCallResult, rpcTryBody]
  · intro v i addr amt cm h1 h2
    simp [ZCashController.sendToAddress, h1, h2, handleRpc, rpcCallResult,
      rpcTryBody]
  · intro v i a ha
    simp [ZCashController.validateAddress, paramFalsy, ha, handleRpc,
      rpcCallResult, rpcTryBody]
  · intro v i bh q hbh
    simp [ZCashController.getBlock, paramFalsy, hbh, handleRpc,
      rpcCallResult, rpcTryBody]
  · intro v i h n hp
    simp [ZCashController.getBlockHash, hp, handleRpc, rpcCallResult,
      rpcTryBody]
  · intro v i txid q htx
    simp [ZCashController.getRawTransaction, paramFalsy, htx, handleRpc,
      rpcCallResult, rpcTryBody]

theorem success_path_wraps_result_witness :
    ("tx01" == "") = false
    ∧ truthy (.str "zs1q") = true
    ∧ truthy (.num 3) = true
    ∧ jsParseInt "9" = some 9
    ∧ (ZCashController.getTransaction (some "tx01")
        (.success ⟨.str "r", none, 1⟩)).outcome = .ok (.str "r")
    ∧ (ZCashController.sendToAddress (.str "zs1q") (.num 3) .undef
        (.success ⟨.str "tid", none, 1⟩)).outcome
        = .ok (.obj [("txid", .str "tid")])
    ∧ (ZCashController.validateAddress (some "tx01")
        (.success ⟨.bool true, none, 1⟩)).outcome = .ok (.bool true)
    ∧ (ZCashController.getBlock (some "tx01") none
        (.success ⟨.str "blk", none, 1⟩)).outcome = .ok (.str "blk")
    ∧ (ZCashController.getBlockHash "9"
        (.success ⟨.str "bh", none, 1⟩)).outcome
        = .ok (.obj [("height", .num 9), ("blockhash", .str "bh")])
    ∧ (ZCashController.getRawTransaction (some "tx01") none
        (.success ⟨.str "raw", none, 1⟩)).outcome = .ok (.str "raw") :=
  ⟨by decide, by decide, by decide, by decide,
   success_path_wraps_result.2.2.2.2.2.2.1 (.str "r") 1 "tx01" (by decide),
   success_path_wraps_result.2.2.2.2.2.2.2.2.1 (.str "tid") 1
     (.str "zs1q") (.num 3) .undef (by decide) (by decide),
   success_path_wraps_result.2.2.2.2.2.2.2.2.2.1 (.bool true) 1 "tx01"
     (by decide),
   success_path_wraps_result.2.2.2.2.2.2.2.2.2.2.1 (.str "blk") 1 "tx01"
     none (by decide),
   success_path_wraps_result.2.2.2.2.2.2.2.2.2.2.2.2.1 (.str "bh") 1 "9" 9
     (by decide),
   success_path_wraps_result.2.2.2.2.2.2.2.2.2.2.2.2.2.2.2.2.1
     (.str "raw") 1 "tx01" none (by decide)⟩
